/-
Verification of the broCoachme backend (main.py, schemas.py).

The backend is a FastAPI application over a MongoDB document store.  We give a
shallow embedding: each Mongo collection becomes a list of typed documents kept
in insertion order, document identifiers (Mongo ObjectIds) are modelled as
natural numbers generated from a per-store counter and rendered as 24-character
lowercase hexadecimal strings, and each HTTP handler becomes a Lean function
from the store (and its request data) to a response together with the store
after the call.  HTTP error outcomes (404, 400, and unhandled exceptions that
surface as a 5xx server error) are an explicit `ApiError` type.

The module `database` (the document-store adapter providing `db` and
`create_document`) is not part of the given sources; its behaviour is modelled
from the specification of the Document Store Adapter: `create(collection,
record) -> id` inserts a validated record and returns its generated identifier
as a string, and finds return documents in insertion (natural) order.
-/
import Mathlib

set_option linter.unusedVariables false

namespace BroCoachme

/-! ## ObjectId model

`bson.ObjectId(s)` accepts exactly the 24-character hexadecimal strings (for
`str` input) and raises `InvalidId` otherwise.  We model an ObjectId value as a
`Nat`; the store generates ids from a counter, and `str()` of an id is its
24-digit lowercase hex rendering. -/

/-- The lowercase hexadecimal digit for `d % 16`. -/
def hexDigitChar (d : Nat) : Char :=
  if d < 10 then Char.ofNat ('0'.toNat + d) else Char.ofNat ('a'.toNat + (d - 10))

/-- Value of a hexadecimal digit character (either case), `none` otherwise. -/
def hexVal? (c : Char) : Option Nat :=
  if '0' ≤ c ∧ c ≤ '9' then some (c.toNat - '0'.toNat)
  else if 'a' ≤ c ∧ c ≤ 'f' then some (c.toNat - 'a'.toNat + 10)
  else if 'A' ≤ c ∧ c ≤ 'F' then some (c.toNat - 'A'.toNat + 10)
  else none

/-- The `k` hexadecimal digits of `n`, least significant first. -/
def toHexLE : Nat → Nat → List Char
  | 0, _ => []
  | k + 1, n => hexDigitChar (n % 16) :: toHexLE k (n / 16)

/-- Python `str(oid)`: the 24-character lowercase hexadecimal form of an ObjectId. -/
def objectIdToString (n : Nat) : String :=
  ⟨(toHexLE 24 n).reverse⟩

/-- Parsing `bson.ObjectId(s)`: parses a 24-character hexadecimal string, `none`
(an `InvalidId` exception in the source) otherwise. -/
def parseObjectId (s : String) : Option Nat :=
  if s.data.length = 24 ∧ s.data.all (fun c => (hexVal? c).isSome) then
    some (s.data.foldl (fun a c => a * 16 + (hexVal? c).getD 0) 0)
  else none

theorem hexVal?_hexDigitChar {d : Nat} (h : d < 16) :
    hexVal? (hexDigitChar d) = some d := by
  interval_cases d <;> rfl

theorem length_toHexLE (k n : Nat) : (toHexLE k n).length = k := by
  induction k generalizing n with
  | zero => rfl
  | succ k ih => simp [toHexLE, ih]

theorem all_hex_toHexLE (k n : Nat) :
    (toHexLE k n).all (fun c => (hexVal? c).isSome) = true := by
  induction k generalizing n with
  | zero => rfl
  | succ k ih =>
    simp only [toHexLE, List.all_cons, Bool.and_eq_true, ih, and_true]
    rw [hexVal?_hexDigitChar (Nat.mod_lt _ (by norm_num))]
    rfl

/-- Evaluating the big-endian digits `(toHexLE k n).reverse` recovers
`n % 16 ^ k`. -/
theorem foldl_reverse_toHexLE (k n : Nat) :
    ((toHexLE k n).reverse.foldl (fun a c => a * 16 + (hexVal? c).getD 0) 0)
      = n % 16 ^ k := by
  induction k generalizing n with
  | zero => simp [toHexLE, Nat.pow_zero, Nat.mod_one]
  | succ k ih =>
    have hrev : (toHexLE (k + 1) n).reverse
        = (toHexLE k (n / 16)).reverse ++ [hexDigitChar (n % 16)] := by
      simp [toHexLE]
    rw [hrev, List.foldl_append, ih]
    simp only [List.foldl_cons, List.foldl_nil]
    rw [hexVal?_hexDigitChar (Nat.mod_lt _ (by norm_num))]
    simp only [Option.getD_some]
    rw [show (16 : Nat) ^ (k + 1) = 16 * 16 ^ k by ring, Nat.mod_mul]
    omega

/-- Round trip: parsing the printed form of an id below `16 ^ 24` recovers
the id. -/
theorem parseObjectId_objectIdToString {n : Nat} (h : n < 16 ^ 24) :
    parseObjectId (objectIdToString n) = some n := by
  unfold parseObjectId objectIdToString
  rw [if_pos]
  · rw [foldl_reverse_toHexLE, Nat.mod_eq_of_lt h]
  · constructor
    · simp [length_toHexLE]
    · simp only [List.all_reverse]
      exact all_hex_toHexLE 24 n

/-! ## Python string helpers -/

/-- Python slicing `s[:n]` on a string. -/
def pySlice (s : String) (n : Nat) : String :=
  ⟨s.data.take n⟩

/-- Worker for Python `str.title()`: a cased character starts a new word when
the previous character is not alphabetic. -/
def pyTitleGo : Bool → List Char → List Char
  | _, [] => []
  | prevAlpha, c :: cs =>
    (if c.isAlpha then (if prevAlpha then c.toLower else c.toUpper) else c)
      :: pyTitleGo c.isAlpha cs

/-- Python `str.title()`. -/
def pyTitle (s : String) : String :=
  ⟨pyTitleGo false s.data⟩

/-- Python `email.split("@")[0]`: the part before the first `@` (the whole
string when there is none). -/
def emailLocalPart (email : String) : String :=
  ⟨email.data.takeWhile (fun c => c ≠ '@')⟩

/-! ## Regex fragment

`list_clients` filters by `{"name": {"$regex": q, "$options": "i"}}`: MongoDB
performs an unanchored, case-insensitive PCRE search of the pattern `q` inside
the name.  We embed the fragment of that semantics exercised here: patterns
made of literal characters and the `.` wildcard (which matches any character
other than a newline).  Other metacharacters are treated as literals by this
model, so theorems about patterns containing them are stated only under a
hypothesis excluding them. -/

/-- A pattern token: the `.` wildcard or a literal character (stored
lowercased, matching the case-insensitive `i` option). -/
inductive RTok
  | dot
  | lit (c : Char)
deriving Repr, DecidableEq

/-- Tokenize a query string for the case-insensitive search. -/
def rtokens (q : String) : List RTok :=
  q.data.map (fun c => if c = '.' then RTok.dot else RTok.lit c.toLower)

/-- Match a token list against the start of a character list. -/
def rmatchHere : List RTok → List Char → Bool
  | [], _ => true
  | _ :: _, [] => false
  | RTok.dot :: ts, x :: cs => x ≠ '\n' && rmatchHere ts cs
  | RTok.lit c :: ts, x :: cs => x.toLower = c && rmatchHere ts cs

/-- Unanchored search: match the token list at some position. -/
def rsearch (ts : List RTok) : List Char → Bool
  | [] => rmatchHere ts []
  | c :: cs => rmatchHere ts (c :: cs) || rsearch ts cs

/-- MongoDB `{"$regex": q, "$options": "i"}` applied to `name`, on the
fragment modelled here. -/
def regexSearchCI (q name : String) : Bool :=
  rsearch (rtokens q) name.data

/-- Case-insensitive prefix test on character lists. -/
def prefixCI : List Char → List Char → Bool
  | [], _ => true
  | _ :: _, [] => false
  | n :: ns, h :: hs => h.toLower = n.toLower && prefixCI ns hs

/-- Case-insensitive substring containment on character lists. -/
def subCI (ns : List Char) : List Char → Bool
  | [] => prefixCI ns []
  | c :: cs => prefixCI ns (c :: cs) || subCI ns cs

/-- The specification's notion for the client filter: `name` contains `q` as a
case-insensitive literal substring.  Stated from the spec's words, to be
compared with `regexSearchCI` from the source. -/
def containsCI (q name : String) : Bool :=
  subCI q.data name.data

/-- The regex metacharacters of PCRE (outside character classes). -/
def isRegexMeta (c : Char) : Bool :=
  c = '.' || c = '^' || c = '$' || c = '*' || c = '+' || c = '?' ||
  c = '(' || c = ')' || c = '[' || c = ']' || c = '\x7b' || c = '\x7d' ||
  c = '|' || c = '\\'

theorem rmatchHere_lit_eq_prefixCI (qs cs : List Char)
    (hq : ∀ c ∈ qs, c ≠ '.') :
    rmatchHere (qs.map (fun c => if c = '.' then RTok.dot else RTok.lit c.toLower)) cs
      = prefixCI qs cs := by
  induction qs generalizing cs with
  | nil => cases cs <;> rfl
  | cons q qs ih =>
    have hq0 : q ≠ '.' := hq q (List.mem_cons_self q qs)
    cases cs with
    | nil => simp [rmatchHere, prefixCI, hq0]
    | cons c cs =>
      simp only [List.map_cons, if_neg hq0, rmatchHere, prefixCI]
      rw [ih cs (fun x hx => hq x (List.mem_cons_of_mem _ hx))]

theorem rsearch_lit_eq_subCI (qs cs : List Char) (hq : ∀ c ∈ qs, c ≠ '.') :
    rsearch (qs.map (fun c => if c = '.' then RTok.dot else RTok.lit c.toLower)) cs
      = subCI qs cs := by
  induction cs with
  | nil => simp [rsearch, subCI, rmatchHere_lit_eq_prefixCI _ _ hq]
  | cons c cs ih =>
    simp [rsearch, subCI, rmatchHere_lit_eq_prefixCI _ _ hq, ih]

/-- On queries free of regex metacharacters, the source's case-insensitive
regex search coincides with literal case-insensitive substring containment. -/
theorem regexSearchCI_eq_containsCI (q name : String)
    (hq : ∀ c ∈ q.data, isRegexMeta c = false) :
    regexSearchCI q name = containsCI q name := by
  unfold regexSearchCI containsCI rtokens
  apply rsearch_lit_eq_subCI
  intro c hc hdot
  have := hq c hc
  rw [hdot] at this
  simp [isRegexMeta] at this

/-! ## Documents and store

One structure per collection (schemas.py), each extended with the
store-generated `_id` (modelled as `Nat`).  `occurred_at` datetimes are
modelled as `Nat` timestamps supplied by the caller. -/

/-- A document of the `coach` collection (schema `Coach`). -/
structure CoachDoc where
  id : Nat
  name : Option String
  email : String
  password : Option String
  avatar_url : Option String
deriving Repr, DecidableEq

/-- A document of the `client` collection (schema `Client`). -/
structure ClientDoc where
  id : Nat
  coach_id : String
  name : String
  email : Option String
  status : String
  notes : Option String
  last_activity : Option String
deriving Repr, DecidableEq

/-- A document of the `invite` collection (schema `Invite`). -/
structure InviteDoc where
  id : Nat
  coach_id : String
  email : String
  message : Option String
  status : String
deriving Repr, DecidableEq

/-- A document of the `program` collection (schema `Program`). -/
structure ProgramDoc where
  id : Nat
  coach_id : String
  title : String
  description : Option String
  sessions_count : Int
deriving Repr, DecidableEq

/-- A document of the `session` collection (schema `Session`). -/
structure SessionDoc where
  id : Nat
  coach_id : String
  program_id : String
  title : String
deriving Repr, DecidableEq

/-- A document of the `exercise` collection (schema `Exercise`). -/
structure ExerciseDoc where
  id : Nat
  coach_id : String
  session_id : String
  name : String
  sets : Int
  reps : Int
  rest_time : Option String
  notes : Option String
  video_url : Option String
deriving Repr, DecidableEq

/-- A document of the `note` collection (schema `Note`). -/
structure NoteDoc where
  id : Nat
  coach_id : String
  client_id : String
  content : String
deriving Repr, DecidableEq

/-- A document of the `activity` collection (schema `Activity`). -/
structure ActivityDoc where
  id : Nat
  coach_id : String
  client_id : Option String
  type : String
  message : String
  occurred_at : Option Nat
deriving Repr, DecidableEq

/-- Modelled from the spec: the document store behind the `database` module
(absent from the sources).  Each collection is its documents in insertion
order; `nextId` is the counter from which `create_document` generates the next
ObjectId. -/
structure Store where
  coach : List CoachDoc
  client : List ClientDoc
  invite : List InviteDoc
  program : List ProgramDoc
  session : List SessionDoc
  exercise : List ExerciseDoc
  note : List NoteDoc
  activity : List ActivityDoc
  nextId : Nat
deriving Repr, DecidableEq

/-- The empty store. -/
def Store.empty : Store :=
  ⟨[], [], [], [], [], [], [], [], 0⟩

/-- Mongo `update_one`: apply `g` to the first element satisfying `f`, leave
the rest unchanged (no-op when nothing matches). -/
def updateFirst (f : α → Bool) (g : α → α) : List α → List α
  | [] => []
  | x :: xs => if f x then g x :: xs else x :: updateFirst f g xs

/-! ## Error model

`HTTPException(404)` and `HTTPException(400)` are the two raised error kinds;
an exception the handler does not catch (for example `bson.errors.InvalidId`
from `ObjectId(...)` on a malformed id) surfaces as an unclassified server
error. -/

/-- Outcome of a handler other than success. -/
inductive ApiError
  | notFound (detail : String)
  | badRequest (detail : String)
  | serverError
deriving Repr, DecidableEq

/-! ## Request and response models -/

/-- Response model `LoginResponse`. -/
structure LoginResponse where
  success : Bool
  coach_id : Option String
  message : String
deriving Repr, DecidableEq

/-- Request body `ClientCreate`.  `status` is `Optional[str] = "Active"`:
absent means the pydantic default `some "Active"`; `none` records an explicit
JSON null. -/
structure ClientCreate where
  name : String
  email : Option String
  status : Option String
  notes : Option String
deriving Repr, DecidableEq

/-- Request body `ProgramCreate`. -/
structure ProgramCreate where
  title : String
  description : Option String
deriving Repr, DecidableEq

/-- Request body `SessionCreate`. -/
structure SessionCreate where
  title : String
deriving Repr, DecidableEq

/-- Request body `ExerciseCreate`.  `sets` and `reps` are plain `int` fields:
any integer validates. -/
structure ExerciseCreate where
  name : String
  sets : Int
  reps : Int
  rest_time : Option String
  notes : Option String
  video_url : Option String
deriving Repr, DecidableEq

/-- Request body `NoteCreate`. -/
structure NoteCreate where
  client_id : String
  content : String
deriving Repr, DecidableEq

/-- Response of `POST /clients`. -/
structure AddClientResponse where
  success : Bool
  client_id : String
deriving Repr, DecidableEq

/-- Response of `POST /programs`. -/
structure CreateProgramResponse where
  success : Bool
  program_id : String
deriving Repr, DecidableEq

/-- Response of `POST /programs/.../sessions`. -/
structure AddSessionResponse where
  success : Bool
  session_id : String
deriving Repr, DecidableEq

/-- Response of `POST /sessions/.../exercises`. -/
structure AddExerciseResponse where
  success : Bool
  exercise_id : String
deriving Repr, DecidableEq

/-- Response of `POST /clients/.../notes`. -/
structure AddNoteResponse where
  success : Bool
  note_id : String
deriving Repr, DecidableEq

/-- Response of `GET /programs/...`: the program plus its sessions. -/
structure ProgramDetail where
  program : ProgramDoc
  sessions : List SessionDoc
deriving Repr, DecidableEq

/-- Response of `GET /sessions/...`: the session plus its exercises. -/
structure SessionDetail where
  session : SessionDoc
  exercises : List ExerciseDoc
deriving Repr, DecidableEq

/-! ## Handlers

Each handler becomes a function of the store and its request data.  The store
assigns ids from the increasing counter, so documents in insertion order carry
increasing ids; a Mongo sort on `_id` descending is therefore the reverse of
the insertion-order list, and a sort on `_id` ascending is the list itself. -/

/-- Handler `POST /auth/login`: find the coach by email (first match in natural
order), creating one when absent; the password is ignored. -/
def login (s : Store) (email : String) : LoginResponse × Store :=
  match s.coach.find? (fun c => c.email == email) with
  | some existing => (⟨true, some (objectIdToString existing.id), "Logged in"⟩, s)
  | none =>
    let cid := s.nextId
    (⟨true, some (objectIdToString cid), "Logged in"⟩,
      { s with
        coach := s.coach ++
          [CoachDoc.mk cid (some (pyTitle (emailLocalPart email))) email none none],
        nextId := cid + 1 })

/-- Handler `GET /clients`: clients of `coach_id`, name filtered by the
case-insensitive regex `q` when `q` is truthy (neither absent nor empty),
sorted by `_id` descending. -/
def list_clients (s : Store) (coach_id : String) (q : Option String) :
    List ClientDoc :=
  let nameMatch : ClientDoc → Bool := fun c =>
    match q with
    | none => true
    | some qs => if qs = "" then true else regexSearchCI qs c.name
  (s.client.filter (fun c => c.coach_id == coach_id && nameMatch c)).reverse

/-- Handler `POST /clients`: insert the client, then an activity entry.  An explicit
`status: null` in the body fails `Client` validation inside the handler (the
schema requires `str` there), raising before any write: a server error. -/
def add_client (s : Store) (coach_id : String) (p : ClientCreate) (now : Nat) :
    Except ApiError AddClientResponse × Store :=
  match p.status with
  | none => (Except.error ApiError.serverError, s)
  | some st =>
    let cid := s.nextId
    let s1 := { s with
      client := s.client ++ [ClientDoc.mk cid coach_id p.name p.email st p.notes none],
      nextId := cid + 1 }
    let s2 := { s1 with
      activity := s1.activity ++
        [ActivityDoc.mk s1.nextId coach_id (some (objectIdToString cid))
          "client" ("Added client " ++ p.name) (some now)],
      nextId := s1.nextId + 1 }
    (Except.ok ⟨true, objectIdToString cid⟩, s2)

/-- Handler `POST /programs`: insert the program with `sessions_count = 0`, then an
activity entry. -/
def create_program (s : Store) (coach_id : String) (p : ProgramCreate)
    (now : Nat) : CreateProgramResponse × Store :=
  let pid := s.nextId
  let s1 := { s with
    program := s.program ++ [ProgramDoc.mk pid coach_id p.title p.description 0],
    nextId := pid + 1 }
  let s2 := { s1 with
    activity := s1.activity ++
      [ActivityDoc.mk s1.nextId coach_id none "program"
        ("Created program " ++ p.title) (some now)],
    nextId := s1.nextId + 1 }
  (⟨true, objectIdToString pid⟩, s2)

/-- Handler `GET /programs/...`: parse the path id as an ObjectId (raising a server
error on a malformed id), look the program up, 404 when absent, and return it
with its sessions (matched by the `program_id` string, `_id` ascending). -/
def get_program (s : Store) (program_id : String) :
    Except ApiError ProgramDetail :=
  match parseObjectId program_id with
  | none => Except.error ApiError.serverError
  | some oid =>
    match s.program.find? (fun p => p.id == oid) with
    | none => Except.error (ApiError.notFound "Program not found")
    | some prog =>
      Except.ok ⟨prog, s.session.filter (fun x => x.program_id == program_id)⟩

/-- Handler `POST /programs/.../sessions`: insert the session first, then increment
`sessions_count` of the program matching the parsed id via `update_one` (a
no-op when no program matches).  A malformed `program_id` raises only at the
increment step, after the session was already inserted. -/
def add_session (s : Store) (coach_id program_id : String) (p : SessionCreate) :
    Except ApiError AddSessionResponse × Store :=
  let sid := s.nextId
  let s1 := { s with
    session := s.session ++ [SessionDoc.mk sid coach_id program_id p.title],
    nextId := sid + 1 }
  match parseObjectId program_id with
  | none => (Except.error ApiError.serverError, s1)
  | some oid =>
    (Except.ok ⟨true, objectIdToString sid⟩,
      { s1 with
        program := updateFirst (fun pr => pr.id == oid)
          (fun pr => { pr with sessions_count := pr.sessions_count + 1 })
          s1.program })

/-- Handler `GET /sessions/...`: parse the path id (server error when malformed), 404
when the session is absent, and return it with its exercises (matched by the
`session_id` string, `_id` ascending). -/
def get_session (s : Store) (session_id : String) :
    Except ApiError SessionDetail :=
  match parseObjectId session_id with
  | none => Except.error ApiError.serverError
  | some oid =>
    match s.session.find? (fun x => x.id == oid) with
    | none => Except.error (ApiError.notFound "Session not found")
    | some sess =>
      Except.ok ⟨sess, s.exercise.filter (fun e => e.session_id == session_id)⟩

/-- Handler `POST /sessions/.../exercises`: insert the exercise; no check of any
kind on the session or the integer fields. -/
def add_exercise (s : Store) (coach_id session_id : String)
    (p : ExerciseCreate) : AddExerciseResponse × Store :=
  let eid := s.nextId
  (⟨true, objectIdToString eid⟩,
    { s with
      exercise := s.exercise ++
        [ExerciseDoc.mk eid coach_id session_id p.name p.sets p.reps p.rest_time
          p.notes p.video_url],
      nextId := eid + 1 })

/-- Handler `POST /clients/.../notes`: 400 when the body `client_id` differs from the
path `client_id`, otherwise insert the note. -/
def add_note (s : Store) (coach_id client_id : String) (p : NoteCreate) :
    Except ApiError AddNoteResponse × Store :=
  if p.client_id ≠ client_id then
    (Except.error (ApiError.badRequest "client_id mismatch"), s)
  else
    let nid := s.nextId
    (Except.ok ⟨true, objectIdToString nid⟩,
      { s with
        note := s.note ++ [NoteDoc.mk nid coach_id client_id p.content],
        nextId := nid + 1 })

/-! ## Diagnostics endpoint -/

/-- Environment observed by `GET /test`: whether the `db` handle exists,
whether `DATABASE_URL` is set, the store's reported name (`none` when `db` has
no `name` attribute), and the outcome of `list_collection_names` (a list, or
the message of a raised exception).  None of the modelled observations raises
outside the inner `try`, so the outer exception handler is unreachable
here. -/
structure TestEnv where
  dbAvailable : Bool
  databaseUrlSet : Bool
  dbName : Option String
  listCollections : Except String (List String)
deriving Repr

/-- The fixed-shape response of `GET /test`. -/
structure TestResponse where
  backend : String
  database : String
  database_url : Option String
  database_name : Option String
  connection_status : String
  collections : List String
deriving Repr, DecidableEq

/-- Handler `GET /test`: reads the environment, truncating a caught error message to
80 characters and the collection list to 10 entries; it issues no write. -/
def test_database (env : TestEnv) (s : Store) : TestResponse × Store :=
  if env.dbAvailable then
    let database_url := some (if env.databaseUrlSet then "✅ Set" else "❌ Not Set")
    let database_name := some (env.dbName.getD "❌ Unknown")
    match env.listCollections with
    | Except.ok cols =>
      (⟨"✅ Running", "✅ Connected & Working", database_url, database_name,
        "Connected", cols.take 10⟩, s)
    | Except.error e =>
      (⟨"✅ Running", "⚠️ Connected but Error: " ++ pySlice e 80, database_url,
        database_name, "Connected", []⟩, s)
  else
    (⟨"✅ Running", "⚠️ Available but not initialized", none, none,
      "Not Connected", []⟩, s)

/-- A concrete error message of more than 80 characters, for exercising the
truncation in `GET /test`. -/
def errMsgEx : String :=
  String.mk (List.replicate 90 'x')

/-- Iterated calls: `N` successive `POST /programs/{program_id}/sessions` calls (the `k`-th
with title `titles k`), threading the store. -/
def addSessionsN (coach_id program_id : String) (titles : Nat → String) :
    Nat → Store → Store
  | 0, s => s
  | n + 1, s =>
    addSessionsN coach_id program_id titles n
      (add_session s coach_id program_id ⟨titles n⟩).2

/-- A store holding a single client named Bob, owned by coach `c1`. -/
def storeBob : Store :=
  { Store.empty with
    client := [ClientDoc.mk 0 "c1" "Bob" none "Active" none none],
    nextId := 1 }

/-- A store holding clients Alice and bob, both owned by coach `c1`. -/
def storeAliceBob : Store :=
  { Store.empty with
    client := [ClientDoc.mk 0 "c1" "Alice" none "Active" none none,
               ClientDoc.mk 1 "c1" "bob" none "Active" none none],
    nextId := 2 }

/-- A store holding a single session (id 0) of coach `c1`. -/
def storeSession : Store :=
  { Store.empty with
    session := [SessionDoc.mk 0 "c1" "000000000000000000000001" "Day 1"],
    nextId := 1 }

/-! ## Helper lemmas -/

theorem updateFirst_eq_self {f : α → Bool} {g : α → α} {l : List α}
    (h : ∀ x ∈ l, f x = false) : updateFirst f g l = l := by
  induction l with
  | nil => rfl
  | cons x xs ih =>
    have hx : f x = false := h x (List.mem_cons_self x xs)
    simp only [updateFirst, hx, Bool.false_eq_true, if_false, List.cons.injEq,
      true_and]
    exact ih (fun y hy => h y (List.mem_cons_of_mem x hy))

theorem find?_updateFirst (f : α → Bool) (g : α → α)
    (hg : ∀ a, f a = true → f (g a) = true) (l : List α) :
    List.find? f (updateFirst f g l) = (List.find? f l).map g := by
  induction l with
  | nil => rfl
  | cons x xs ih =>
    cases hx : f x with
    | true =>
      simp [updateFirst, hx, List.find?_cons_of_pos _ hx,
        List.find?_cons_of_pos _ (hg x hx)]
    | false =>
      simp only [updateFirst, hx, Bool.false_eq_true, if_false]
      rw [List.find?_cons_of_neg _ (by simp [hx]),
        List.find?_cons_of_neg _ (by simp [hx])]
      exact ih

/-! ## Claim theorems -/

/-- C4: `POST /clients/{id}/notes` with a body `client_id` differing from the
path `client_id` rejects with a bad-request validation error, and the store is
left exactly as it was: no Note (and no other document) is written. -/
theorem add_note_mismatch_rejects (s : Store) (coach_id client_id : String)
    (p : NoteCreate) (h : p.client_id ≠ client_id) :
    add_note s coach_id client_id p
      = (Except.error (ApiError.badRequest "client_id mismatch"), s) := by
  simp [add_note, h]

theorem add_note_mismatch_rejects_witness :
    add_note Store.empty "c1" "k2" ⟨"k3", "hello"⟩
      = (Except.error (ApiError.badRequest "client_id mismatch"), Store.empty) :=
  add_note_mismatch_rejects Store.empty "c1" "k2" ⟨"k3", "hello"⟩ (by decide)

/-- C9: when the body `client_id` matches the path, `POST /clients/{id}/notes`
writes the note and returns success for every store, coach and client id
whatsoever — no check that the client exists or belongs to this coach. -/
theorem add_note_no_existence_check (s : Store) (coach_id client_id : String)
    (p : NoteCreate) (h : p.client_id = client_id) :
    add_note s coach_id client_id p
      = (Except.ok ⟨true, objectIdToString s.nextId⟩,
         { s with
           note := s.note ++ [NoteDoc.mk s.nextId coach_id client_id p.content],
           nextId := s.nextId + 1 }) := by
  simp [add_note, h]

theorem add_note_no_existence_check_witness :
    add_note Store.empty "ghostCoach" "ghostClient" ⟨"ghostClient", "hi"⟩
      = (Except.ok ⟨true, objectIdToString 0⟩,
         { Store.empty with
           note := [NoteDoc.mk 0 "ghostCoach" "ghostClient" "hi"],
           nextId := 1 }) :=
  add_note_no_existence_check Store.empty "ghostCoach" "ghostClient"
    ⟨"ghostClient", "hi"⟩ rfl

/-- C8: `POST /programs/{id}/sessions` never checks that the program exists:
for a well-formed `program_id` matching no program, the session is still
inserted (an orphan) and the call succeeds with a `session_id`, while the
program collection is untouched because the counter increment matches
nothing. -/
theorem add_session_no_existence_check (s : Store) (coach_id program_id : String)
    (p : SessionCreate) (oid : Nat) (hp : parseObjectId program_id = some oid)
    (hmiss : ∀ pr ∈ s.program, pr.id ≠ oid) :
    add_session s coach_id program_id p
      = (Except.ok ⟨true, objectIdToString s.nextId⟩,
         { s with
           session := s.session ++
             [SessionDoc.mk s.nextId coach_id program_id p.title],
           nextId := s.nextId + 1 }) := by
  simp only [add_session, hp]
  rw [updateFirst_eq_self (fun x hx => by simp [hmiss x hx])]

theorem add_session_no_existence_check_witness :
    add_session Store.empty "c1" "00000000000000000000002a" ⟨"Day 1"⟩
      = (Except.ok ⟨true, objectIdToString 0⟩,
         { Store.empty with
           session := [SessionDoc.mk 0 "c1" "00000000000000000000002a" "Day 1"],
           nextId := 1 }) :=
  add_session_no_existence_check Store.empty "c1" "00000000000000000000002a"
    ⟨"Day 1"⟩ 42 (by decide) (by simp [Store.empty])

/-- C3 counterexample: on the identifier `"xyz"`, which corresponds to no
existing program, `GET /programs/{id}` raises from the ObjectId constructor
and surfaces a server error, not the not-found error the claim requires. -/
theorem get_program_malformed_id_cex :
    get_program Store.empty "xyz" = Except.error ApiError.serverError
    ∧ (∀ p ∈ Store.empty.program, False)
    ∧ (Except.error ApiError.serverError
        ≠ (Except.error (ApiError.notFound "Program not found") :
            Except ApiError ProgramDetail)) := by
  refine ⟨rfl, by simp [Store.empty], by simp⟩

/-- C3 amended: for every identifier that is a well-formed ObjectId string but
matches no existing program, `GET /programs/{id}` returns the not-found
error. -/
theorem get_program_missing_not_found (s : Store) (pid : String) (oid : Nat)
    (hp : parseObjectId pid = some oid)
    (hmiss : ∀ p ∈ s.program, p.id ≠ oid) :
    get_program s pid = Except.error (ApiError.notFound "Program not found") := by
  simp only [get_program, hp]
  have hfind : s.program.find? (fun p => p.id == oid) = none := by
    rw [List.find?_eq_none]
    intro x hx
    simp [hmiss x hx]
  rw [hfind]

theorem get_program_missing_not_found_witness :
    get_program Store.empty "00000000000000000000002a"
      = Except.error (ApiError.notFound "Program not found") :=
  get_program_missing_not_found Store.empty "00000000000000000000002a" 42
    (by decide) (by simp [Store.empty])

theorem login_eq_of_found {s : Store} {email : String} {ex : CoachDoc}
    (h : s.coach.find? (fun c => c.email == email) = some ex) :
    login s email = (⟨true, some (objectIdToString ex.id), "Logged in"⟩, s) := by
  simp [login, h]

theorem login_eq_of_absent {s : Store} {email : String}
    (h : s.coach.find? (fun c => c.email == email) = none) :
    login s email
      = (⟨true, some (objectIdToString s.nextId), "Logged in"⟩,
         { s with
           coach := s.coach ++
             [CoachDoc.mk s.nextId (some (pyTitle (emailLocalPart email)))
               email none none],
           nextId := s.nextId + 1 }) := by
  simp [login, h]

/-- C5: two consecutive logins with the same email return the same coach id;
the second login leaves the store untouched, and the two calls together create
at most one coach document with that email. -/
theorem login_idempotent_by_email (s : Store) (email : String) :
    ((login (login s email).2 email).1).coach_id = ((login s email).1).coach_id
    ∧ (login (login s email).2 email).2 = (login s email).2
    ∧ ((login s email).2.coach.filter (fun c => c.email == email)).length
        ≤ (s.coach.filter (fun c => c.email == email)).length + 1 := by
  cases h : s.coach.find? (fun c => c.email == email) with
  | some ex =>
    rw [login_eq_of_found h, login_eq_of_found h]
    exact ⟨rfl, rfl, Nat.le_succ _⟩
  | none =>
    rw [login_eq_of_absent h]
    have h2 : (s.coach ++
        [CoachDoc.mk s.nextId (some (pyTitle (emailLocalPart email)))
          email none none]).find? (fun c => c.email == email)
        = some (CoachDoc.mk s.nextId (some (pyTitle (emailLocalPart email)))
            email none none) := by
      rw [List.find?_append, h]
      simp [List.find?]
    rw [login_eq_of_found h2]
    refine ⟨rfl, rfl, ?_⟩
    simp [List.filter_append, List.filter]

/-- C6: the client id returned by `POST /clients` appears among the results of
a subsequent `GET /clients` for the same coach (with their ids stringified the
way the route stringifies `_id`). -/
theorem created_client_listed (s : Store) (coach_id : String) (p : ClientCreate)
    (now : Nat) (st : String) (h : p.status = some st) :
    ∃ r s', add_client s coach_id p now = (Except.ok r, s')
      ∧ r.client_id
          ∈ (list_clients s' coach_id none).map (fun c => objectIdToString c.id) := by
  simp only [add_client, h]
  refine ⟨_, _, rfl, ?_⟩
  refine List.mem_map.mpr
    ⟨ClientDoc.mk s.nextId coach_id p.name p.email st p.notes none, ?_, rfl⟩
  simp [list_clients]

theorem created_client_listed_witness :
    ∃ r s',
      add_client Store.empty "c1" ⟨"Alice", none, some "Active", none⟩ 0
        = (Except.ok r, s')
      ∧ r.client_id
          ∈ (list_clients s' "c1" none).map (fun c => objectIdToString c.id) :=
  created_client_listed Store.empty "c1" ⟨"Alice", none, some "Active", none⟩ 0
    "Active" rfl

/-- C7: `GET /test` never mutates the store; its response carries at most 10
collection names, and a caught error message appears truncated to at most 80
characters. -/
theorem test_database_observational (env : TestEnv) (s : Store) :
    (test_database env s).2 = s
    ∧ ((test_database env s).1).collections.length ≤ 10
    ∧ (∀ msg, env.dbAvailable = true → env.listCollections = Except.error msg →
        ((test_database env s).1).database
            = "⚠️ Connected but Error: " ++ pySlice msg 80
          ∧ (pySlice msg 80).length ≤ 80) := by
  obtain ⟨av, url, nm, lc⟩ := env
  refine ⟨?_, ?_, ?_⟩
  · cases av <;> cases lc <;> rfl
  · cases av <;> cases lc <;>
      simp [test_database, List.length_take]
  · intro msg hav hlc
    cases hav
    cases hlc
    refine ⟨rfl, ?_⟩
    simp only [pySlice, String.length]
    rw [List.length_take]
    exact Nat.min_le_left _ _

theorem test_database_observational_witness :
    (test_database ⟨true, false, none, Except.error errMsgEx⟩ Store.empty).2
      = Store.empty
    ∧ ((test_database ⟨true, false, none, Except.error errMsgEx⟩
          Store.empty).1).collections.length ≤ 10
    ∧ ((test_database ⟨true, false, none, Except.error errMsgEx⟩
          Store.empty).1).database
        = "⚠️ Connected but Error: " ++ pySlice errMsgEx 80
    ∧ (pySlice errMsgEx 80).length ≤ 80 := by
  have h := test_database_observational
    ⟨true, false, none, Except.error errMsgEx⟩ Store.empty
  exact ⟨h.1, h.2.1, (h.2.2 errMsgEx rfl rfl).1, (h.2.2 errMsgEx rfl rfl).2⟩

/-- C2 counterexample: with the filter `q = "."`, `GET /clients` returns the
client named `Bob`, whose name does not contain `"."` as a case-insensitive
literal substring — the filter is a regex search, not literal containment. -/
theorem list_clients_regex_not_literal_cex :
    list_clients storeBob "c1" (some ".")
      = [ClientDoc.mk 0 "c1" "Bob" none "Active" none none]
    ∧ containsCI "." "Bob" = false := by
  exact ⟨rfl, rfl⟩

/-- C2 amended: for every non-empty filter `q` free of regex metacharacters,
`GET /clients` returns exactly the clients of `coach_id` whose name contains
`q` as a case-insensitive literal substring (insertion-descending order). -/
theorem list_clients_literal_substring_filter (s : Store) (coach_id q : String)
    (hne : q ≠ "") (hlit : ∀ c ∈ q.data, isRegexMeta c = false) :
    list_clients s coach_id (some q)
      = (s.client.filter
          (fun c => c.coach_id == coach_id && containsCI q c.name)).reverse := by
  simp only [list_clients]
  congr 1
  apply List.filter_congr
  intro c hc
  simp [if_neg hne, regexSearchCI_eq_containsCI q c.name hlit]

theorem list_clients_literal_substring_filter_witness :
    list_clients storeAliceBob "c1" (some "LI")
      = (storeAliceBob.client.filter
          (fun c => c.coach_id == "c1" && containsCI "LI" c.name)).reverse :=
  list_clients_literal_substring_filter storeAliceBob "c1" "LI" (by decide)
    (by decide)

theorem add_session_count_step (s : Store) (coach_id pid : String)
    (t : SessionCreate) (oid : Nat) (hp : parseObjectId pid = some oid) :
    ((add_session s coach_id pid t).2).program.find? (fun pr => pr.id == oid)
      = (s.program.find? (fun pr => pr.id == oid)).map
          (fun pr => { pr with sessions_count := pr.sessions_count + 1 }) := by
  simp only [add_session, hp]
  refine find?_updateFirst _ _ ?_ s.program
  intro a ha
  exact ha

theorem addSessionsN_count (coach_id pid : String) (titles : Nat → String)
    (oid : Nat) (hp : parseObjectId pid = some oid) (N : Nat) :
    ∀ (s : Store) (prog : ProgramDoc),
      s.program.find? (fun pr => pr.id == oid) = some prog →
      (addSessionsN coach_id pid titles N s).program.find?
          (fun pr => pr.id == oid)
        = some { prog with sessions_count := prog.sessions_count + (N : Int) } := by
  induction N with
  | zero => intro s prog hfind; simpa using hfind
  | succ n ih =>
    intro s prog hfind
    have hstep := add_session_count_step s coach_id pid ⟨titles n⟩ oid hp
    rw [hfind] at hstep
    simp only [Option.map_some'] at hstep
    have hrec := ih _ _ hstep
    rw [show addSessionsN coach_id pid titles (n + 1) s
        = addSessionsN coach_id pid titles n
            (add_session s coach_id pid ⟨titles n⟩).2 from rfl, hrec]
    congr 1
    push_cast
    ring_nf

/-- C1: creating a program and then issuing `N` session-creation calls under
the returned program id yields `sessions_count = N` when the program is
re-fetched via `GET /programs/{id}`. -/
theorem sessions_count_tracks_creations (s : Store) (coach_id : String)
    (p : ProgramCreate) (now : Nat) (titles : Nat → String) (N : Nat)
    (hwf : ∀ pr ∈ s.program, pr.id < s.nextId) (hbound : s.nextId < 16 ^ 24) :
    ∃ d,
      get_program
          (addSessionsN coach_id (create_program s coach_id p now).1.program_id
            titles N (create_program s coach_id p now).2)
          (create_program s coach_id p now).1.program_id
        = Except.ok d
      ∧ d.program.sessions_count = (N : Int) := by
  have hpid : (create_program s coach_id p now).1.program_id
      = objectIdToString s.nextId := rfl
  have hp : parseObjectId (create_program s coach_id p now).1.program_id
      = some s.nextId := by
    rw [hpid]; exact parseObjectId_objectIdToString hbound
  have hfind0 : ((create_program s coach_id p now).2).program.find?
      (fun pr => pr.id == s.nextId)
      = some (ProgramDoc.mk s.nextId coach_id p.title p.description 0) := by
    show (s.program ++ [ProgramDoc.mk s.nextId coach_id p.title p.description 0]).find?
        (fun pr => pr.id == s.nextId) = _
    rw [List.find?_append]
    have hnone : s.program.find? (fun pr => pr.id == s.nextId) = none := by
      rw [List.find?_eq_none]
      intro x hx
      simp [Nat.ne_of_lt (hwf x hx)]
    rw [hnone]
    simp [List.find?]
  have hfindN := addSessionsN_count coach_id
    (create_program s coach_id p now).1.program_id titles s.nextId hp N _ _ hfind0
  refine ⟨⟨{ ProgramDoc.mk s.nextId coach_id p.title p.description 0 with
      sessions_count := 0 + (N : Int) },
    (addSessionsN coach_id (create_program s coach_id p now).1.program_id
        titles N (create_program s coach_id p now).2).session.filter
      (fun x => x.program_id == (create_program s coach_id p now).1.program_id)⟩,
    ?_, by simp⟩
  simp only [get_program, hp, hfindN]

theorem sessions_count_tracks_creations_witness :
    ∃ d,
      get_program
          (addSessionsN "c1"
            (create_program Store.empty "c1" ⟨"Strength", none⟩ 0).1.program_id
            (fun _ => "Day") 2
            (create_program Store.empty "c1" ⟨"Strength", none⟩ 0).2)
          (create_program Store.empty "c1" ⟨"Strength", none⟩ 0).1.program_id
        = Except.ok d
      ∧ d.program.sessions_count = (2 : Int) :=
  sessions_count_tracks_creations Store.empty "c1" ⟨"Strength", none⟩ 0
    (fun _ => "Day") 2 (by simp [Store.empty]) (by decide)

/-- C10: `POST /sessions/{id}/exercises` accepts any integers for `sets` and
`reps` — zero and negatives included — inserts them unchanged, and
`GET /sessions/{id}` returns the exercise with those exact values. -/
theorem add_exercise_unvalidated_roundtrip (s : Store)
    (coach_id session_id : String) (p : ExerciseCreate) (oid : Nat)
    (hp : parseObjectId session_id = some oid) (sess : SessionDoc)
    (hfind : s.session.find? (fun x => x.id == oid) = some sess) :
    (add_exercise s coach_id session_id p).1.success = true
    ∧ ∃ exs,
        get_session (add_exercise s coach_id session_id p).2 session_id
          = Except.ok ⟨sess, exs⟩
        ∧ ExerciseDoc.mk s.nextId coach_id session_id p.name p.sets p.reps
            p.rest_time p.notes p.video_url ∈ exs := by
  refine ⟨rfl,
    ((add_exercise s coach_id session_id p).2).exercise.filter
      (fun e => e.session_id == session_id), ?_, ?_⟩
  · simp only [get_session, hp]
    rw [show ((add_exercise s coach_id session_id p).2).session = s.session
      from rfl, hfind]
  · rw [List.mem_filter]
    refine ⟨?_, by simp⟩
    show _ ∈ s.exercise ++ [_]
    simp

theorem add_exercise_unvalidated_roundtrip_witness :
    (add_exercise storeSession "c1" "000000000000000000000000"
      ⟨"Squat", -3, 0, none, none, none⟩).1.success = true
    ∧ ∃ exs,
        get_session (add_exercise storeSession "c1" "000000000000000000000000"
            ⟨"Squat", -3, 0, none, none, none⟩).2 "000000000000000000000000"
          = Except.ok ⟨SessionDoc.mk 0 "c1" "000000000000000000000001" "Day 1", exs⟩
        ∧ ExerciseDoc.mk 1 "c1" "000000000000000000000000" "Squat" (-3) 0
            none none none ∈ exs :=
  add_exercise_unvalidated_roundtrip storeSession "c1"
    "000000000000000000000000" ⟨"Squat", -3, 0, none, none, none⟩ 0 (by decide)
    (SessionDoc.mk 0 "c1" "000000000000000000000001" "Day 1") (by decide)

end BroCoachme
